import Mathlib

/-!
Shallow embedding of the `cdk-aws-infra` repository's stack-construction
logic (src/cdk_aws_infra/stacks/infrastructure_stack.py,
src/cdk_aws_infra/stacks/frontend_stack.py, src/app.py).

The CDK stack constructor is a pure, single-pass graph builder: it reads a
few context flags and declares a fixed sequence of resources, with three
conditional sites (the ALB security-group ingress branch, the listener
`open=` argument, and the `use_eip` blocks).  We model the constructor as a
function from the context-flag record to a `StackModel` describing the
declared resources, security-group rule sets, launch/ASG/listener
configuration, stack outputs and SSM parameters.
-/

namespace CdkAwsInfra

/-- Context values as read by `self.node.try_get_context`; `none` means the
key is absent.  The last three fields (`persistent_mode`, `reuse_ssh_key`,
`ssh_key_name`) are part of the deployment configuration surface named by
the specification but are never read by this version of the code; they are
carried in the record so that claims about them can be stated. -/
structure Context where
  arch : Option String
  expose_swagger_public : Option Bool
  restrict_swagger_to_cidr : Option String
  use_eip : Option Bool
  persistent_mode : Option Bool
  reuse_ssh_key : Option Bool
  ssh_key_name : Option String
deriving DecidableEq

/-- `arch = self.node.try_get_context("arch") or "ARM_64"` (line 21).
Python's `or` falls back on any falsy value, so both an absent key and an
empty string resolve to `"ARM_64"`. -/
def archOf (c : Context) : String :=
  match c.arch with
  | none => "ARM_64"
  | some s => if s = "" then "ARM_64" else s

/-- Lines 22-24: `expose_swagger_public` defaults to `True` when absent. -/
def exposeOf (c : Context) : Bool := c.expose_swagger_public.getD true

/-- Line 25 plus the Python truthiness test on line 80
(`if restrict_swagger_to_cidr:`): an absent or empty CIDR string counts as
no restriction. -/
def cidrRestrictionOf (c : Context) : Option String :=
  match c.restrict_swagger_to_cidr with
  | none => none
  | some s => if s = "" then none else some s

/-- Lines 26-28: `use_eip` defaults to `False` when absent. -/
def useEipOf (c : Context) : Bool := c.use_eip.getD false

/-- The two security groups declared by the stack. -/
inductive SgName
  | internal
  | alb
deriving DecidableEq

/-- Ingress-rule peers used by the stack. -/
inductive Peer
  | sg (g : SgName)
  | anyIpv4
  | ipv4 (cidr : String)
deriving DecidableEq

/-- Ports used in ingress rules. -/
inductive PortSpec
  | tcp (port : Nat)
  | allIcmp
deriving DecidableEq

structure SgRule where
  peer : Peer
  port : PortSpec
  descr : String
deriving DecidableEq

/-- CDK `SecurityGroup.addIngressRule` keys the rule construct by
(peer, port); adding a rule with the same peer and port twice leaves the
rule set unchanged. -/
def addIngressRule (rules : List SgRule) (r : SgRule) : List SgRule :=
  if rules.any (fun x => x.peer = r.peer ∧ x.port = r.port) then rules
  else rules ++ [r]

/-- Ingress rules of `InternalSG`, in source order: self-referential 8000,
3000 and ICMP (lines 58-60), SSH from anywhere (line 63), and the two
ALB-to-service rules added unconditionally after the ALB security group
exists (lines 96-97). -/
def internalSgIngress : List SgRule :=
  [ ⟨.sg .internal, .tcp 8000, "Internal port 8000"⟩,
    ⟨.sg .internal, .tcp 3000, "Internal port 3000"⟩,
    ⟨.sg .internal, .allIcmp, "Internal ICMP"⟩,
    ⟨.anyIpv4, .tcp 22, "SSH for debugging"⟩,
    ⟨.sg .alb, .tcp 8000, "ALB to FastAPI"⟩,
    ⟨.sg .alb, .tcp 3000, "ALB to Gateway"⟩ ].foldl addIngressRule []

/-- The conditional ingress branch on `SwaggerALBSG` (lines 79-93): when
exposing publicly, either two CIDR-scoped rules on 80/443 or two
open-to-any rules on 80/443; when not exposing, nothing. -/
def albSgBranchRules (c : Context) : List SgRule :=
  if exposeOf c then
    match cidrRestrictionOf c with
    | some cidr =>
        [ ⟨.ipv4 cidr, .tcp 80, "HTTP from restricted CIDR"⟩,
          ⟨.ipv4 cidr, .tcp 443, "HTTPS from restricted CIDR"⟩ ]
    | none =>
        [ ⟨.anyIpv4, .tcp 80, "HTTP"⟩,
          ⟨.anyIpv4, .tcp 443, "HTTPS"⟩ ]
  else []

/-- The listener is created with `open=expose_swagger_public` (line 375).
Per CDK `ApplicationListener` semantics, `open=True` adds an ingress rule
to the load balancer's security group allowing any IPv4 address on the
listener port (80); `open=False` adds nothing. -/
def listenerOpenRules (c : Context) : List SgRule :=
  if exposeOf c then [⟨.anyIpv4, .tcp 80, "Allow from anyone on port 80"⟩]
  else []

/-- The complete ingress rule set of `SwaggerALBSG`: the explicit branch
rules followed by the listener's `open` rule, with CDK's per-(peer, port)
deduplication. -/
def albSgIngress (c : Context) : List SgRule :=
  (albSgBranchRules c ++ listenerOpenRules c).foldl addIngressRule []

/-- Line 67: the key pair is declared with a fixed literal name. -/
def keyPairName : String := "cdk-aws-infra-debug-key"

/-- The two application services. -/
inductive Svc
  | fastapi
  | gateway
deriving DecidableEq

/-- Resource declarations made by `InfrastructureStack.__init__`, tagged
with their construct ids. -/
inductive Resource
  | s3Bucket (cid : String)
  | vpc (cid : String)
  | securityGroup (cid : String) (g : SgName)
  | keyPair (cid : String) (keyName : String)
  | iamRole (cid : String)
  | instProfile (cid : String)
  | launchTmpl (cid : String) (s : Svc)
  | autoScalingGroup (cid : String) (s : Svc)
  | loadBalancer (cid : String)
  | targetGroup (cid : String) (s : Svc)
  | albListener (cid : String)
  | ssmDoc (cid : String)
  | eip (cid : String) (s : Svc)
deriving DecidableEq

def Resource.isLoadBalancer : Resource → Bool
  | .loadBalancer _ => true
  | _ => false

def Resource.isTargetGroup : Resource → Bool
  | .targetGroup _ _ => true
  | _ => false

def Resource.isKeyPair : Resource → Bool
  | .keyPair _ _ => true
  | _ => false

def Resource.isEip : Resource → Bool
  | .eip _ _ => true
  | _ => false

/-- The resource declarations of the stack in source order (lines 31-436).
Every declaration is unconditional except the two Elastic IPs, which are
guarded by `use_eip` (lines 430-436). -/
def resources (c : Context) : List Resource :=
  [ .s3Bucket "AppConfigBucket",
    .vpc "AppVPC",
    .securityGroup "InternalSG" .internal,
    .keyPair "DebuggingKeyPair" keyPairName,
    .securityGroup "SwaggerALBSG" .alb,
    .iamRole "EC2Role",
    .instProfile "EC2InstanceProfile",
    .launchTmpl "FastAPILT" .fastapi,
    .launchTmpl "GatewayLT" .gateway,
    .autoScalingGroup "FastAPIASG" .fastapi,
    .autoScalingGroup "GatewayASG" .gateway,
    .loadBalancer "SwaggerALB",
    .targetGroup "FastAPITG" .fastapi,
    .targetGroup "GatewayTG" .gateway,
    .albListener "HttpListener",
    .ssmDoc "AppStateManagerDoc" ]
  ++ (if useEipOf c then
        [ .eip "FastAPIEIP" .fastapi, .eip "GatewayEIP" .gateway ]
      else [])

/-- AMI CPU variants. -/
inductive CpuType
  | arm64
  | x8664
deriving DecidableEq

/-- Line 130: `cpu_type = ARM_64 if arch == "ARM_64" else X86_64`; the AMI
(lines 131-134) is Amazon Linux 2023 with that CPU type, shared by both
launch templates. -/
def amiCpuType (c : Context) : CpuType :=
  if archOf c = "ARM_64" then .arm64 else .x8664

/-- Launch-template configuration relevant to the claims: machine image,
instance type, attached security group, SSH key name. -/
structure LaunchTmplSpec where
  image : CpuType
  instanceType : String
  securityGroup : SgName
  keyName : String
deriving DecidableEq

/-- `FastAPILT` (lines 280-288). -/
def fastapiLt (c : Context) : LaunchTmplSpec :=
  ⟨amiCpuType c, "t4g.micro", .internal, keyPairName⟩

/-- `GatewayLT` (lines 291-299). -/
def gatewayLt (c : Context) : LaunchTmplSpec :=
  ⟨amiCpuType c, "t4g.medium", .internal, keyPairName⟩

/-- Auto-scaling-group configuration: capacities (lines 305-307, 316-318)
and the target groups the ASG is attached to (lines 369-370). -/
structure AsgSpec where
  svc : Svc
  minCapacity : Nat
  maxCapacity : Nat
  desiredCapacity : Nat
  attachedTargetGroups : List Svc
deriving DecidableEq

/-- `FastAPIASG` (lines 302-310) attached to `FastAPITG` (line 369). -/
def fastapiAsg : AsgSpec := ⟨.fastapi, 1, 1, 1, [.fastapi]⟩

/-- `GatewayASG` (lines 313-321) attached to `GatewayTG` (line 370). -/
def gatewayAsg : AsgSpec := ⟨.gateway, 1, 1, 1, [.gateway]⟩

/-- A path-routing rule on the ALB listener (lines 383-393). -/
structure ListenerRule where
  priority : Nat
  pathPattern : String
  forwardTo : Svc
deriving DecidableEq

/-- The listener's default action (lines 376-379). -/
inductive DefaultAction
  | fixedResponse (status : Nat) (contentType : String) (messageBody : String)
deriving DecidableEq

structure ListenerSpec where
  port : Nat
  openToAnyIpv4 : Bool
  defaultAction : DefaultAction
  rules : List ListenerRule
deriving DecidableEq

/-- `HttpListener` (lines 373-393): port 80, `open=expose_swagger_public`,
fixed 404 default, and two path rules forwarding `/swagger/api/*` to the
FastAPI target group and `/swagger/gw/*` to the Gateway target group. -/
def albListenerSpec (c : Context) : ListenerSpec :=
  ⟨80, exposeOf c,
    .fixedResponse 404 "text/plain" "Not Found",
    [ ⟨10, "/swagger/api/*", .fastapi⟩,
      ⟨20, "/swagger/gw/*", .gateway⟩ ]⟩

/-- Deploy-time attribute references whose concrete values are resolved by
the provisioning engine (CloudFormation tokens at synthesis time). -/
inductive RefKind
  | vpcId
  | internalSgId
  | albSgId
  | albDnsName
  | fastapiTgArn
  | gatewayTgArn
  | listenerArn
  | bucketName
  | fastapiAsgName
  | gatewayAsgName
  | fastapiEipAllocId
  | gatewayEipAllocId
deriving DecidableEq

/-- A string value published as an output or SSM parameter: either an
attribute reference, a literal string, or an f-string of the form
`"http://" ++ <reference> ++ suffix`. -/
inductive OutValue
  | ref (r : RefKind)
  | lit (s : String)
  | httpUrl (r : RefKind) (suffix : String)
deriving DecidableEq

/-- The unconditional `CfnOutput` declarations in source order
(lines 439-513). -/
def outputsBase : List (String × OutValue) :=
  [ ("VpcId", .ref .vpcId),
    ("InternalSGId", .ref .internalSgId),
    ("ALBSGId", .ref .albSgId),
    ("SwaggerAlbDnsName", .ref .albDnsName),
    ("SwaggerAlbUrl", .httpUrl .albDnsName ""),
    ("FastAPISwaggerUrl", .httpUrl .albDnsName "/swagger/api/docs"),
    ("GatewaySwaggerUrl", .httpUrl .albDnsName "/swagger/gw/api-docs"),
    ("FastAPITargetGroupArn", .ref .fastapiTgArn),
    ("GatewayTargetGroupArn", .ref .gatewayTgArn),
    ("ALBListenerArn", .ref .listenerArn),
    ("ConfigBucketName", .ref .bucketName),
    ("FastAPIASGName", .ref .fastapiAsgName),
    ("GatewayASGName", .ref .gatewayAsgName),
    ("SSHKeyName", .lit keyPairName),
    ("SSHInstructions",
      .lit "Para SSH: 1) Baixe a private key no console AWS EC2 > Key Pairs > cdk-aws-infra-debug-key, 2) Salve como cdk-aws-infra-debug-key.pem, 3) Execute \x27./deploy.sh ssh fastapi\x27") ]

/-- The two EIP allocation-id outputs guarded by `use_eip`
(lines 515-523). -/
def eipOutputs : List (String × OutValue) :=
  [ ("FastAPIEIPAllocationId", .ref .fastapiEipAllocId),
    ("GatewayEIPAllocationId", .ref .gatewayEipAllocId) ]

/-- All `CfnOutput` declarations of the stack (lines 439-523). -/
def outputs (c : Context) : List (String × OutValue) :=
  outputsBase ++ (if useEipOf c then eipOutputs else [])

/-- The nine unconditional SSM `StringParameter` declarations under
`/infra/cdk/*` (lines 527-562). -/
def ssmParamsBase : List (String × OutValue) :=
  [ ("/infra/cdk/config/bucket", .ref .bucketName),
    ("/infra/cdk/alb/dns", .ref .albDnsName),
    ("/infra/cdk/fastapi/asg-name", .ref .fastapiAsgName),
    ("/infra/cdk/gateway/asg-name", .ref .gatewayAsgName),
    ("/infra/cdk/fastapi/target-group-arn", .ref .fastapiTgArn),
    ("/infra/cdk/gateway/target-group-arn", .ref .gatewayTgArn),
    ("/infra/cdk/security/internal-sg-id", .ref .internalSgId),
    ("/infra/cdk/security/alb-sg-id", .ref .albSgId),
    ("/infra/cdk/ssh/key-name", .lit keyPairName) ]

/-- The two EIP allocation-id SSM parameters guarded by `use_eip`
(lines 563-571). -/
def eipSsmParams : List (String × OutValue) :=
  [ ("/infra/cdk/eip/fastapi", .ref .fastapiEipAllocId),
    ("/infra/cdk/eip/gateway", .ref .gatewayEipAllocId) ]

/-- All SSM `StringParameter` declarations of the stack
(lines 527-571). -/
def ssmParams (c : Context) : List (String × OutValue) :=
  ssmParamsBase ++ (if useEipOf c then eipSsmParams else [])

/-- Everything `InfrastructureStack.__init__` declares, as a function of
the context flags. -/
structure StackModel where
  resources : List Resource
  internalSgIngress : List SgRule
  albSgIngress : List SgRule
  fastapiLt : LaunchTmplSpec
  gatewayLt : LaunchTmplSpec
  fastapiAsg : AsgSpec
  gatewayAsg : AsgSpec
  albInternetFacing : Bool
  listener : ListenerSpec
  outputs : List (String × OutValue)
  ssmParams : List (String × OutValue)
deriving DecidableEq

/-- The whole `InfrastructureStack.__init__` body (lines 17-572) as a pure
function of the context. -/
def infrastructureStack (c : Context) : StackModel :=
  { resources := resources c
    internalSgIngress := internalSgIngress
    albSgIngress := albSgIngress c
    fastapiLt := fastapiLt c
    gatewayLt := gatewayLt c
    fastapiAsg := fastapiAsg
    gatewayAsg := gatewayAsg
    albInternetFacing := exposeOf c
    listener := albListenerSpec c
    outputs := outputs c
    ssmParams := ssmParams c }

/-- Resources of `FrontendStack.__init__`
(src/cdk_aws_infra/stacks/frontend_stack.py, lines 13-87). -/
inductive FrontendResource
  | siteBucket
  | originAccessControl
  | distribution
deriving DecidableEq

/-- `FrontendStack` declares its three resources and four outputs with no
context reads at all. -/
structure FrontendModel where
  resources : List FrontendResource
  outputNames : List String
deriving DecidableEq

def frontendStack : FrontendModel :=
  { resources := [.siteBucket, .originAccessControl, .distribution]
    outputNames :=
      [ "BucketName", "CloudFrontDomain", "CloudFrontDistributionId",
        "CloudFrontURL" ] }

/-- `app.py` synthesizes both stacks from one context (lines 16-19). -/
def appSynth (c : Context) : StackModel × FrontendModel :=
  (infrastructureStack c, frontendStack)

/-! ## Concrete contexts used when settling the claims -/

/-- A deployment passing no context flags at all (every default applies). -/
def defaultCtx : Context := ⟨none, none, none, none, none, none, none⟩

/-- A deployment with `expose_swagger_public=true` and
`restrict_swagger_to_cidr="10.0.0.0/8"`. -/
def restrictedCtx : Context :=
  ⟨none, some true, some "10.0.0.0/8", none, none, none, none⟩

/-- A deployment with `expose_swagger_public=false` and a CIDR set. -/
def closedCtx : Context :=
  ⟨none, some false, some "10.0.0.0/8", none, none, none, none⟩

/-- A deployment requesting key reuse of `"debug-key"` (flags this code
version never reads). -/
def reuseKeyCtx : Context :=
  ⟨none, none, none, none, none, some true, some "debug-key"⟩

/-- A deployment requesting persistent mode (a flag this code version
never reads). -/
def persistentCtx : Context :=
  ⟨none, none, none, none, some true, none, none⟩

/-- A deployment passing the empty string as the architecture value. -/
def emptyArchCtx : Context :=
  ⟨some "", none, none, none, none, none, none⟩

/-! ## Claims -/

/-- C1: the claim says that with `exposePublicly=true` and a CIDR
restriction set, the edge security group's 80/443 ingress is scoped to
that CIDR only and never also open to all addresses.  The code's explicit
branch (lines 79-90) is CIDR-scoped, but the listener is created with
`open=expose_swagger_public` (line 375) independently of the CIDR flag, so
the ALB security group additionally receives an any-IPv4 rule on port 80:
at `restrict_swagger_to_cidr="10.0.0.0/8"` the rule set contains both a
restricted-CIDR rule and an open-to-all rule. -/
theorem c1_restricted_and_open_coexist :
    (albSgIngress restrictedCtx).any
        (fun r => r.peer = .ipv4 "10.0.0.0/8" ∧ r.port = .tcp 80) = true ∧
    (albSgIngress restrictedCtx).any
        (fun r => r.peer = .anyIpv4 ∧ r.port = .tcp 80) = true ∧
    albSgIngress restrictedCtx =
      [ ⟨.ipv4 "10.0.0.0/8", .tcp 80, "HTTP from restricted CIDR"⟩,
        ⟨.ipv4 "10.0.0.0/8", .tcp 443, "HTTPS from restricted CIDR"⟩,
        ⟨.anyIpv4, .tcp 80, "Allow from anyone on port 80"⟩ ] := by
  refine ⟨?_, ?_, ?_⟩ <;> decide

/-- C2: the claim describes a reuse/uniquification branch for the SSH key.
This code version reads neither `reuseSshKey` nor `sshKeyName`: even with
`reuse_ssh_key=true` and `ssh_key_name="debug-key"`, exactly one
`CfnKeyPair` is still created (line 66) and its name is the fixed literal
`"cdk-aws-infra-debug-key"`, not the input name. -/
theorem c2_keypair_always_created_fixed_name :
    ((resources reuseKeyCtx).filter (fun r => r.isKeyPair)).length = 1 ∧
    Resource.keyPair "DebuggingKeyPair" "cdk-aws-infra-debug-key"
      ∈ resources reuseKeyCtx ∧
    keyPairName ≠ "debug-key" := by
  refine ⟨?_, ?_, ?_⟩ <;> decide

/-- C3 counterexample: with `persistent_mode=true` the produced graph still
contains the load balancer (line 328) and both target groups (lines
336, 352), because the flag is never read and those resources are declared
unconditionally. -/
theorem c3_counterexample :
    (resources persistentCtx).any (fun r => r.isLoadBalancer) = true ∧
    (resources persistentCtx).any (fun r => r.isTargetGroup) = true := by
  refine ⟨?_, ?_⟩ <;> decide

/-- C3 amended: for every deployment the resource graph contains the load
balancer and both target groups, and the persistence flag is never read —
changing `persistent_mode` to any value leaves the resource graph
unchanged; no SingleDev topology exists in this version. -/
theorem c3_amended_lb_and_tg_always_present (c : Context) :
    Resource.loadBalancer "SwaggerALB" ∈ resources c ∧
    Resource.targetGroup "FastAPITG" Svc.fastapi ∈ resources c ∧
    Resource.targetGroup "GatewayTG" Svc.gateway ∈ resources c ∧
    (∀ b : Option Bool,
      resources { c with persistent_mode := b } = resources c) := by
  refine ⟨List.mem_append_left _ (by decide),
    List.mem_append_left _ (by decide),
    List.mem_append_left _ (by decide),
    fun b => rfl⟩

/-- C5: with `expose_swagger_public=false` neither the explicit branch
(lines 79-93) nor the listener's `open` argument (line 375) adds any rule,
so the ALB security group ends up with zero ingress rules, for every value
of `restrict_swagger_to_cidr`. -/
theorem c5_not_exposed_no_ingress (c : Context) (h : exposeOf c = false) :
    albSgIngress c = [] := by
  simp [albSgIngress, albSgBranchRules, listenerOpenRules, h]

/-- C5 witness: the closed deployment with a CIDR set takes the theorem at
a concrete input. -/
theorem c5_witness :
    exposeOf closedCtx = false ∧ albSgIngress closedCtx = [] :=
  ⟨rfl, c5_not_exposed_no_ingress closedCtx rfl⟩

/-- C4 counterexample: at the all-defaults deployment, no published SSM
parameter carries the literal string `"true"` or `"false"`; in particular
no persistence-mode flag parameter is published (the code publishes only
the nine parameters of lines 527-562, none of them a mode flag). -/
theorem c4_counterexample :
    (ssmParams defaultCtx).any
        (fun p => p.2 = OutValue.lit "true" ∨ p.2 = OutValue.lit "false")
      = false := by
  decide

/-- C4 amended: for every flag combination the published parameter map
contains the config-bucket name, the internal security-group id and the
resolved SSH key name; for every flag combination no published parameter
carries the literal string value `"true"` or `"false"`, and every
published key is one of the eleven fixed `/infra/cdk/*` keys — so no
persistence-mode flag parameter is ever published. -/
theorem c4_amended_core_keys_present (c : Context) :
    ("/infra/cdk/config/bucket", OutValue.ref .bucketName) ∈ ssmParams c ∧
    ("/infra/cdk/security/internal-sg-id", OutValue.ref .internalSgId)
      ∈ ssmParams c ∧
    ("/infra/cdk/ssh/key-name", OutValue.lit keyPairName) ∈ ssmParams c ∧
    (ssmParams c).any
        (fun p => p.2 = OutValue.lit "true" ∨ p.2 = OutValue.lit "false")
      = false ∧
    (ssmParams c).all
        (fun p =>
          (ssmParamsBase.map Prod.fst ++ eipSsmParams.map Prod.fst).contains
            p.1)
      = true := by
  refine ⟨List.mem_append_left _ (by decide),
    List.mem_append_left _ (by decide),
    List.mem_append_left _ (by decide), ?_, ?_⟩ <;>
    cases h : useEipOf c <;>
      simp only [ssmParams, h, if_true, if_false, ite_true, ite_false,
        Bool.false_eq_true, Bool.true_eq_false] <;>
      decide

/-- C6: for every flag combination, each service has its own scaling group
with min = max = desired = 1, each scaling group is attached to its own
target group, exactly one (shared) load balancer exists and its listener
forwards `/swagger/api/*` to the FastAPI target group and `/swagger/gw/*`
to the Gateway target group, and the default action for unmatched paths is
a fixed 404 response. -/
theorem c6_autoscaled_topology (c : Context) :
    ((infrastructureStack c).fastapiAsg.minCapacity = 1 ∧
     (infrastructureStack c).fastapiAsg.maxCapacity = 1 ∧
     (infrastructureStack c).fastapiAsg.desiredCapacity = 1) ∧
    ((infrastructureStack c).gatewayAsg.minCapacity = 1 ∧
     (infrastructureStack c).gatewayAsg.maxCapacity = 1 ∧
     (infrastructureStack c).gatewayAsg.desiredCapacity = 1) ∧
    (infrastructureStack c).fastapiAsg.attachedTargetGroups = [Svc.fastapi] ∧
    (infrastructureStack c).gatewayAsg.attachedTargetGroups = [Svc.gateway] ∧
    ((infrastructureStack c).resources.filter
        (fun r => r.isLoadBalancer)).length = 1 ∧
    (∃ r ∈ (infrastructureStack c).listener.rules,
        r.pathPattern = "/swagger/api/*" ∧ r.forwardTo = Svc.fastapi) ∧
    (∃ r ∈ (infrastructureStack c).listener.rules,
        r.pathPattern = "/swagger/gw/*" ∧ r.forwardTo = Svc.gateway) ∧
    (infrastructureStack c).listener.defaultAction =
      DefaultAction.fixedResponse 404 "text/plain" "Not Found" := by
  refine ⟨⟨rfl, rfl, rfl⟩, ⟨rfl, rfl, rfl⟩, rfl, rfl, ?_, ?_, ?_, rfl⟩
  · cases h : useEipOf c <;>
      simp [infrastructureStack, resources, h, Resource.isLoadBalancer]
  · refine ⟨⟨10, "/swagger/api/*", Svc.fastapi⟩, ?_, rfl, rfl⟩
    show ListenerRule.mk 10 "/swagger/api/*" Svc.fastapi ∈
      (albListenerSpec c).rules
    exact List.mem_cons_self _ _
  · refine ⟨⟨20, "/swagger/gw/*", Svc.gateway⟩, ?_, rfl, rfl⟩
    show ListenerRule.mk 20 "/swagger/gw/*" Svc.gateway ∈
      (albListenerSpec c).rules
    exact List.mem_cons_of_mem _ (List.mem_cons_self _ _)

/-- C7 counterexample: the architecture value `""` is not `ARM_64`, yet
because line 21 resolves any falsy value to `"ARM_64"` via Python's `or`,
both launch templates at `arch=""` use the arm64 image variant rather than
the x86_64 variant the claim requires for "any other architecture
value". -/
theorem c7_counterexample :
    emptyArchCtx.arch = some "" ∧
    "" ≠ "ARM_64" ∧
    (infrastructureStack emptyArchCtx).fastapiLt.image = CpuType.arm64 ∧
    (infrastructureStack emptyArchCtx).gatewayLt.image = CpuType.arm64 := by
  refine ⟨rfl, ?_, rfl, rfl⟩
  decide

/-- C7 amended: for every deployment, both launch templates use the AMI
resolved from the architecture flag after default resolution: an absent or
empty architecture value resolves to `"ARM_64"`, the resolved value
`"ARM_64"` yields the arm64 image variant, and any other resolved value
yields the x86_64 variant. -/
theorem c7_ami_from_resolved_arch (c : Context) :
    ((infrastructureStack c).fastapiLt.image = CpuType.arm64 ↔
        archOf c = "ARM_64") ∧
    ((infrastructureStack c).gatewayLt.image = CpuType.arm64 ↔
        archOf c = "ARM_64") ∧
    ((infrastructureStack c).fastapiLt.image = CpuType.x8664 ↔
        ¬ archOf c = "ARM_64") ∧
    ((infrastructureStack c).gatewayLt.image = CpuType.x8664 ↔
        ¬ archOf c = "ARM_64") ∧
    archOf { c with arch := none } = "ARM_64" ∧
    archOf { c with arch := some "" } = "ARM_64" := by
  refine ⟨?_, ?_, ?_, ?_, rfl, ?_⟩
  · by_cases h : archOf c = "ARM_64" <;>
      simp [infrastructureStack, fastapiLt, gatewayLt, amiCpuType, h]
  · by_cases h : archOf c = "ARM_64" <;>
      simp [infrastructureStack, fastapiLt, gatewayLt, amiCpuType, h]
  · by_cases h : archOf c = "ARM_64" <;>
      simp [infrastructureStack, fastapiLt, gatewayLt, amiCpuType, h]
  · by_cases h : archOf c = "ARM_64" <;>
      simp [infrastructureStack, fastapiLt, gatewayLt, amiCpuType, h]
  · simp [archOf]

/-- SSM parameter keys guarded by `use_eip`. -/
def eipParamKeys : List String :=
  ["/infra/cdk/eip/fastapi", "/infra/cdk/eip/gateway"]

/-- Output names guarded by `use_eip`. -/
def eipOutputKeys : List String :=
  ["FastAPIEIPAllocationId", "GatewayEIPAllocationId"]

set_option maxRecDepth 8192 in
/-- C8: the EIP allocation-id SSM parameters and stack outputs are present
exactly when `use_eip` resolves to true, and every other parameter and
output is unaffected by that flag: removing the EIP entries always leaves
exactly the fixed unconditional lists, whatever the flags. -/
theorem c8_eip_presence_iff_and_frame (c : Context) :
    (("/infra/cdk/eip/fastapi" ∈ (ssmParams c).map Prod.fst) ↔
        useEipOf c = true) ∧
    (("/infra/cdk/eip/gateway" ∈ (ssmParams c).map Prod.fst) ↔
        useEipOf c = true) ∧
    (("FastAPIEIPAllocationId" ∈ (outputs c).map Prod.fst) ↔
        useEipOf c = true) ∧
    (("GatewayEIPAllocationId" ∈ (outputs c).map Prod.fst) ↔
        useEipOf c = true) ∧
    ((ssmParams c).filter (fun p => !(eipParamKeys.contains p.1)) =
        ssmParamsBase) ∧
    ((outputs c).filter (fun p => !(eipOutputKeys.contains p.1)) =
        outputsBase) := by
  cases h : useEipOf c <;>
    refine ⟨?_, ?_, ?_, ?_, ?_, ?_⟩ <;>
      simp only [ssmParams, outputs, h, if_true, if_false, Bool.false_eq_true,
        Bool.true_eq_false, ite_true, ite_false] <;>
    decide

/-- C9: stack construction is deterministic — synthesizing the application
twice from identical context flags yields identical stack models (the
whole construction is a pure function of the context record). -/
theorem c9_deterministic (c1 c2 : Context) (h : c1 = c2) :
    appSynth c1 = appSynth c2 := by
  rw [h]

/-- C9 witness: determinism at the all-defaults deployment. -/
theorem c9_witness : appSynth defaultCtx = appSynth defaultCtx :=
  c9_deterministic defaultCtx defaultCtx rfl

/-- C10: for every flag combination a load balancer is declared, and the
internal security group contains the two unconditional ALB-to-service
ingress rules on ports 8000 and 3000 (lines 96-97), independent of the
exposure and CIDR flags. -/
theorem c10_alb_ingress_unconditional (c : Context) :
    ((infrastructureStack c).resources.any (fun r => r.isLoadBalancer))
      = true ∧
    SgRule.mk (.sg .alb) (.tcp 8000) "ALB to FastAPI"
      ∈ (infrastructureStack c).internalSgIngress ∧
    SgRule.mk (.sg .alb) (.tcp 3000) "ALB to Gateway"
      ∈ (infrastructureStack c).internalSgIngress := by
  refine ⟨?_, ?_, ?_⟩
  · cases h : useEipOf c <;>
      simp [infrastructureStack, resources, h, Resource.isLoadBalancer]
  · show SgRule.mk (.sg .alb) (.tcp 8000) "ALB to FastAPI"
      ∈ internalSgIngress
    decide
  · show SgRule.mk (.sg .alb) (.tcp 3000) "ALB to Gateway"
      ∈ internalSgIngress
    decide

end CdkAwsInfra
